import Mathlib

/-!
Shallow embedding of `logging_utils/LogAdapter.go` (a structured logging
adapter with severity filtering, pipe-delimited formatting, console/file
sinks and a daily cron rotation job), together with theorems settling the
specification claims about it.

Modelling conventions:
* Go structs become Lean structures; the `lumberjack.Logger` collaborator is
  modelled by its configuration record (the Go code only ever constructs it,
  writes to it, rotates it and closes it).
* Effects (console prints, file writes) are made explicit: each operation
  returns the list of console lines it prints and the list of byte strings it
  hands to the rotating-file handle.
* Environment-supplied values (formatted current time, goroutine id,
  hostname and whether `os.Hostname` failed, the fresh UUID, the result of an
  external `Write`/`Rotate` call) are passed in as explicit parameters.
* Go `map[string]int` lookup returns the zero value `0` for a missing key;
  `mapLookup` reproduces that.
-/

/-- Configuration consumed by the adapter (`config.LogConfig` in Go). -/
structure LogConfig where
  Level : String
  Console : Bool
  File : Bool
  Directory : String
  MaxSize : Int
  MaxBackup : Int
  MaxAge : Int
  Compress : Bool
deriving Repr, DecidableEq

/-- Application identity (`config.AppConfig` in Go; only the two fields the
adapter reads). -/
structure AppConfig where
  AppName : String
  MsName : String
deriving Repr, DecidableEq

/-- The rotating-file collaborator (`lumberjack.Logger`), modelled by the
configuration the adapter stores into it in `initLogFile`. -/
structure LumberjackLogger where
  Filename : String
  LocalTime : Bool
  MaxSize : Int
  MaxBackups : Int
  MaxAge : Int
  Compress : Bool
deriving Repr, DecidableEq

/-- The adapter instance (`LogAdapter` struct in Go). `logger` is `none`
exactly when the Go field holds a nil pointer. -/
structure LogAdapter where
  cfg : LogConfig
  logger : Option LumberjackLogger
  appName : String
  msName : String
deriving Repr, DecidableEq

/-- Lookup in a Go `map[string]int` literal represented as an association
list: a missing key yields the zero value `0`. -/
def mapLookup : List (String × Nat) → String → Nat
  | [], _ => 0
  | (k', v) :: rest, k => if k = k' then v else mapLookup rest k

/-- The static severity ranking table built in `isLoggable`:
ERROR=1, DEBUG=2, WARN=3, INFO=4. -/
def rankTable : List (String × Nat) :=
  [("ERROR", 1), ("DEBUG", 2), ("WARN", 3), ("INFO", 4)]

/-- The rank of a level name: table lookup, unknown names resolve to 0. -/
def rank (levelName : String) : Nat := mapLookup rankTable levelName

/-- Go `isLoggable`: a message is logged iff the rank of its level is at
least the rank of the configured minimum level. -/
def LogAdapter.isLoggable (a : LogAdapter) (logLevel : String) : Bool :=
  decide (mapLookup rankTable logLevel ≥ mapLookup rankTable a.cfg.Level)

/-- The four level names present in the ranking table. -/
def knownLevels : List String := ["ERROR", "DEBUG", "WARN", "INFO"]

/-- A Go `interface\x7b\x7d` value as it can reach the variadic `options`
parameters (they are never inspected, so only the slice-wrapping structure
matters). -/
inductive GoValue where
  | str : String → GoValue
  | intVal : Int → GoValue
  | slice : List GoValue → GoValue

/-- Environment values consumed by `formatMessage`: the formatted current
local time, the goroutine id from `goid()`, the result of `os.Hostname()`
(string returned plus whether it errored), and the fresh UUID string. -/
structure FormatEnv where
  now : String
  goId : Int
  hostname : String
  hostnameErr : Bool
  uuidV : String
deriving Repr, DecidableEq

/-- Output of one adapter operation: the lines printed to the console
(stdout) and the byte strings handed to the rotating-file handle's `Write`. -/
structure Emission where
  console : List String
  fileWrites : List String
deriving Repr, DecidableEq

/-- Go `formatMessage`: builds the pipe-delimited record
`now|[goId]|hostname|level|application-log|appName|msName|uuid|message`.
The variadic `options` parameter is accepted but never consumed. On a
hostname-resolution error a diagnostic is printed to console (first
component); the record is the second component. -/
def LogAdapter.formatMessage (a : LogAdapter) (env : FormatEnv)
    (logLevel message : String) (options : List GoValue) : List String × String :=
  let _ := options
  let diag := if env.hostnameErr then ["Error occurred at requesting host name"] else []
  (diag,
    env.now ++ "|[" ++ toString env.goId ++ "]|" ++ env.hostname ++ "|" ++
      logLevel ++ "|" ++ "application-log" ++ "|" ++ a.appName ++ "|" ++
      a.msName ++ "|" ++ env.uuidV ++ "|" ++ message)

/-- Go `logToConsole`: prints the record iff the console sink is enabled. -/
def LogAdapter.logToConsole (a : LogAdapter) (message : String) : Emission :=
  if a.cfg.Console then ⟨[message], []⟩ else ⟨[], []⟩

/-- Go `logToFile`: if the file sink is enabled, hands `message ++ "\n"` to
the rotating handle's `Write`; `writeErr` is the error that external call
returns (`none` for success). On error the error is printed to console and
the function returns normally. -/
def LogAdapter.logToFile (a : LogAdapter) (writeErr : Option String)
    (message : String) : Emission :=
  if !a.cfg.File then ⟨[], []⟩
  else ⟨(match writeErr with | some e => [e] | none => []), [message ++ "\n"]⟩

/-- Go `log`: gate on `isLoggable`, format, then fan out to the console and
file sinks. -/
def LogAdapter.log (a : LogAdapter) (env : FormatEnv) (writeErr : Option String)
    (logLevel message : String) (options : List GoValue) : Emission :=
  if !a.isLoggable logLevel then ⟨[], []⟩
  else
    let fm := a.formatMessage env logLevel message [GoValue.slice options]
    let c := a.logToConsole fm.2
    let f := a.logToFile writeErr fm.2
    ⟨fm.1 ++ c.console ++ f.console, c.fileWrites ++ f.fileWrites⟩

/-- Go `Error`: forwards its options slice as one variadic element. -/
def LogAdapter.Error (a : LogAdapter) (env : FormatEnv) (writeErr : Option String)
    (message : String) (options : List GoValue) : Emission :=
  a.log env writeErr "ERROR" message [GoValue.slice options]

/-- Go `Debug`: drops its options (calls `log` with no variadic arguments). -/
def LogAdapter.Debug (a : LogAdapter) (env : FormatEnv) (writeErr : Option String)
    (message : String) (options : List GoValue) : Emission :=
  let _ := options
  a.log env writeErr "DEBUG" message []

/-- Go `Info`: forwards its options slice as one variadic element. -/
def LogAdapter.Info (a : LogAdapter) (env : FormatEnv) (writeErr : Option String)
    (message : String) (options : List GoValue) : Emission :=
  a.log env writeErr "INFO" message [GoValue.slice options]

/-- Go `Warn`: forwards its options slice as one variadic element. -/
def LogAdapter.Warn (a : LogAdapter) (env : FormatEnv) (writeErr : Option String)
    (message : String) (options : List GoValue) : Emission :=
  a.log env writeErr "WARN" message [GoValue.slice options]

/-- One call at level `L` emitted `em`: exactly one record per enabled sink
when `L` clears the configured threshold, nothing on either sink when it
does not. -/
def EmitsPerSink (a : LogAdapter) (L : String) (em : Emission) : Prop :=
  if rank L ≥ rank a.cfg.Level then
    em.console.length = (if a.cfg.Console then 1 else 0) ∧
    em.fileWrites.length = (if a.cfg.File then 1 else 0)
  else em = ⟨[], []⟩

/-- Go `initLogFile`: when the file sink is disabled it returns immediately
with a nil error; when enabled it fills the adapter's `logger` field with a
`lumberjack.Logger` configuration (no filesystem access happens here — the
handle opens lazily on first write) and returns a nil error. The Go
signature can return an error, hence the `Except`; no branch ever produces
one. -/
def LogAdapter.initLogFile (a : LogAdapter) : Except String LogAdapter :=
  if !a.cfg.File then Except.ok a
  else
    Except.ok { a with
      logger := some
        { Filename := a.cfg.Directory ++ "/go-base-template.log",
          LocalTime := true,
          MaxSize := a.cfg.MaxSize,
          MaxBackups := a.cfg.MaxBackup,
          MaxAge := a.cfg.MaxAge,
          Compress := a.cfg.Compress } }

/-- Result of `NewLogAdapter`: the adapter together with the effect on the
package-level cron scheduler `cr` (a rotation job registered via `AddFunc`
and the scheduler started). -/
structure NewResult where
  adapter : LogAdapter
  cronRegistered : Bool
  cronStarted : Bool
deriving Repr, DecidableEq

/-- Go `NewLogAdapter`: builds the adapter, runs `initLogFile` (returning
its error, with no adapter, if it yields one), then unconditionally
registers the daily rotation job on a fresh cron scheduler and starts it. -/
def NewLogAdapter (cfg : LogConfig) (appCfg : AppConfig) : Except String NewResult :=
  let a : LogAdapter :=
    { cfg := cfg, logger := none,
      appName := appCfg.AppName, msName := appCfg.MsName }
  match a.initLogFile with
  | Except.error e => Except.error e
  | Except.ok a' =>
      Except.ok { adapter := a', cronRegistered := true, cronStarted := true }

/-- The closure registered with the cron scheduler in `NewLogAdapter`:
calls `Rotate` on the adapter's logger handle. `rotate` models the external
`lumberjack` rotate operation as a function from the handle it is invoked on
(`none` = nil pointer) to the error it returns. The result is the console
lines printed and, when rotation failed, the panic message aborting the
process. -/
def cronJob (a : LogAdapter) (rotate : Option LumberjackLogger → Option String) :
    List String × Option String :=
  match rotate a.logger with
  | some e => ([e], some "Error occurred in log rotation")
  | none => ([], none)

/-- Runtime state of an adapter: the adapter value plus whether its file
handle has been closed and whether the shared cron scheduler is running. -/
structure RuntimeState where
  adapter : LogAdapter
  loggerClosed : Bool
  cronRunning : Bool
deriving Repr, DecidableEq

/-- Go `Destruct`: when the file sink is enabled, close the logger handle
and stop the cron scheduler; otherwise do nothing. -/
def Destruct (s : RuntimeState) : RuntimeState :=
  if s.adapter.cfg.File then
    { s with loggerClosed := true, cronRunning := false }
  else s

/-- A sample running state for a file-enabled adapter. -/
def sampleStateFileOn : RuntimeState :=
  { adapter :=
      { cfg := { Level := "INFO", Console := true, File := true,
                 Directory := "/tmp", MaxSize := 1, MaxBackup := 1, MaxAge := 1,
                 Compress := false },
        logger := some { Filename := "/tmp/go-base-template.log",
                         LocalTime := true, MaxSize := 1, MaxBackups := 1,
                         MaxAge := 1, Compress := false },
        appName := "app", msName := "ms" },
    loggerClosed := false, cronRunning := true }

/-- A sample running state for a console-only adapter. -/
def sampleStateFileOff : RuntimeState :=
  { adapter :=
      { cfg := { Level := "INFO", Console := true, File := false,
                 Directory := "", MaxSize := 1, MaxBackup := 1, MaxAge := 1,
                 Compress := false },
        logger := none, appName := "app", msName := "ms" },
    loggerClosed := false, cronRunning := true }

/-- A sample application identity. -/
def sampleAppCfg : AppConfig := { AppName := "app", MsName := "ms" }

/-- A file-sink-enabled configuration whose directory is not a valid
directory path (the empty string). -/
def invalidDirCfg : LogConfig :=
  { Level := "INFO", Console := false, File := true, Directory := "",
    MaxSize := 1, MaxBackup := 1, MaxAge := 1, Compress := false }

/-- A console-only configuration (file sink disabled). -/
def consoleOnlyCfg : LogConfig :=
  { Level := "INFO", Console := true, File := false, Directory := "",
    MaxSize := 1, MaxBackup := 1, MaxAge := 1, Compress := false }

/-- Split a character list at every pipe character: the fields of a
pipe-delimited record. An empty list is one empty field. -/
def splitFields : List Char → List (List Char)
  | [] => [[]]
  | c :: cs =>
    if c = '|' then [] :: splitFields cs
    else
      match splitFields cs with
      | [] => [[c]]
      | f :: fs => (c :: f) :: fs

/-- A sample format environment. -/
def sampleEnv : FormatEnv :=
  { now := "t", goId := 1, hostname := "h", hostnameErr := false, uuidV := "u" }

/-- A sample console-only adapter. -/
def sampleAdapter : LogAdapter :=
  { cfg := consoleOnlyCfg, logger := none, appName := "app", msName := "ms" }

theorem rank_of_unknown (s : String) (h : s ∉ knownLevels) : rank s = 0 := by
  simp only [knownLevels, List.mem_cons, List.not_mem_nil, or_false, not_or] at h
  obtain ⟨h1, h2, h3, h4⟩ := h
  simp [rank, rankTable, mapLookup, h1, h2, h3, h4]

theorem rank_of_known_pos (s : String) (h : s ∈ knownLevels) : 1 ≤ rank s := by
  simp only [knownLevels, List.mem_cons, List.not_mem_nil, or_false] at h
  rcases h with h | h | h | h <;> subst h <;> decide

/-- C1: for every level name L and configured minimum M among the four known
names, `isLoggable L` is true iff `rank L ≥ rank M` under the static table
ERROR=1, DEBUG=2, WARN=3, INFO=4 with unknown names ranked 0; in particular
an unknown level name is always suppressed when the minimum is known. -/
theorem isLoggable_iff_rank_ge (a : LogAdapter) (L : String)
    (hM : a.cfg.Level ∈ knownLevels) :
    (a.isLoggable L = true ↔ rank L ≥ rank a.cfg.Level) ∧
    (L ∉ knownLevels → a.isLoggable L = false) := by
  constructor
  · simp [LogAdapter.isLoggable, rank]
  · intro hL
    have h0 : rank L = 0 := rank_of_unknown L hL
    have h1 : 1 ≤ rank a.cfg.Level := rank_of_known_pos _ hM
    simp only [LogAdapter.isLoggable, decide_eq_false_iff_not, not_le]
    calc mapLookup rankTable L = 0 := h0
    _ < rank a.cfg.Level := h1

theorem isLoggable_iff_rank_ge_witness :
    (("INFO" : String) ∈ knownLevels) ∧
    (({ cfg := { Level := "INFO", Console := true, File := false,
                 Directory := "", MaxSize := 1, MaxBackup := 1, MaxAge := 1,
                 Compress := false },
        logger := none, appName := "app", msName := "ms" : LogAdapter
      }.isLoggable "TRACE" = true ↔ rank "TRACE" ≥ rank "INFO") ∧
     (("TRACE" : String) ∉ knownLevels →
      { cfg := { Level := "INFO", Console := true, File := false,
                 Directory := "", MaxSize := 1, MaxBackup := 1, MaxAge := 1,
                 Compress := false },
        logger := none, appName := "app", msName := "ms" : LogAdapter
      }.isLoggable "TRACE" = false)) :=
  ⟨by decide, isLoggable_iff_rank_ge _ "TRACE" (by decide)⟩

/-- C9: when the configured minimum level is not among the four known names
it ranks 0, and since every rank is ≥ 0, `isLoggable` returns true for every
level name whatsoever: nothing is filtered out under a misconfigured
minimum. -/
theorem isLoggable_always_true_of_unknown_min (a : LogAdapter) (L : String)
    (hM : a.cfg.Level ∉ knownLevels) : a.isLoggable L = true := by
  have h0 : rank a.cfg.Level = 0 := rank_of_unknown _ hM
  simp only [LogAdapter.isLoggable, ge_iff_le, decide_eq_true_eq]
  calc mapLookup rankTable a.cfg.Level = 0 := h0
  _ ≤ mapLookup rankTable L := Nat.zero_le _

theorem isLoggable_always_true_of_unknown_min_witness :
    (("VERBOSE" : String) ∉ knownLevels) ∧
    { cfg := { Level := "VERBOSE", Console := true, File := false,
               Directory := "", MaxSize := 1, MaxBackup := 1, MaxAge := 1,
               Compress := false },
      logger := none, appName := "app", msName := "ms" : LogAdapter
    }.isLoggable "NOPE" = true :=
  ⟨by decide, isLoggable_always_true_of_unknown_min _ "NOPE" (by decide)⟩

theorem log_emitsPerSink (a : LogAdapter) (env : FormatEnv) (L message : String)
    (options : List GoValue) (hh : env.hostnameErr = false) :
    EmitsPerSink a L (a.log env none L message options) := by
  unfold EmitsPerSink LogAdapter.log LogAdapter.isLoggable
  by_cases hr : rank L ≥ rank a.cfg.Level
  · rw [if_pos hr]
    have : decide (mapLookup rankTable L ≥ mapLookup rankTable a.cfg.Level) = true := by
      simpa [rank] using hr
    rw [this]
    simp only [Bool.not_true, Bool.false_eq_true, if_false]
    unfold LogAdapter.formatMessage LogAdapter.logToConsole LogAdapter.logToFile
    rw [hh]
    by_cases hc : a.cfg.Console <;> by_cases hf : a.cfg.File <;>
      simp [hc, hf]
  · rw [if_neg hr]
    have : decide (mapLookup rankTable L ≥ mapLookup rankTable a.cfg.Level) = false := by
      simpa [rank] using hr
    rw [this]
    simp

/-- C2: on a call to the corresponding public method, a level whose rank
clears the configured minimum produces exactly one record on each enabled
sink (console and/or file); a level below the threshold produces zero
records on either sink. Stated for a successful file write and a successful
hostname lookup, so console lines are exactly the emitted records. -/
theorem methods_emit_once_per_enabled_sink (a : LogAdapter) (env : FormatEnv)
    (message : String) (options : List GoValue) (hh : env.hostnameErr = false) :
    EmitsPerSink a "ERROR" (a.Error env none message options) ∧
    EmitsPerSink a "DEBUG" (a.Debug env none message options) ∧
    EmitsPerSink a "INFO" (a.Info env none message options) ∧
    EmitsPerSink a "WARN" (a.Warn env none message options) :=
  ⟨log_emitsPerSink a env "ERROR" message _ hh,
   log_emitsPerSink a env "DEBUG" message _ hh,
   log_emitsPerSink a env "INFO" message _ hh,
   log_emitsPerSink a env "WARN" message _ hh⟩

theorem methods_emit_once_per_enabled_sink_witness :
    (({ now := "2020-06-16 00:39:15.7164", goId := 7, hostname := "h",
        hostnameErr := false, uuidV := "u" : FormatEnv }).hostnameErr = false) ∧
    (EmitsPerSink
      { cfg := { Level := "WARN", Console := true, File := false,
                 Directory := "", MaxSize := 1, MaxBackup := 1, MaxAge := 1,
                 Compress := false },
        logger := none, appName := "app", msName := "ms" : LogAdapter } "ERROR"
      (({ cfg := { Level := "WARN", Console := true, File := false,
                   Directory := "", MaxSize := 1, MaxBackup := 1, MaxAge := 1,
                   Compress := false },
          logger := none, appName := "app", msName := "ms" : LogAdapter }).Error
        { now := "2020-06-16 00:39:15.7164", goId := 7, hostname := "h",
          hostnameErr := false, uuidV := "u" } none "hello" []) ∧
     EmitsPerSink
      { cfg := { Level := "WARN", Console := true, File := false,
                 Directory := "", MaxSize := 1, MaxBackup := 1, MaxAge := 1,
                 Compress := false },
        logger := none, appName := "app", msName := "ms" : LogAdapter } "DEBUG"
      (({ cfg := { Level := "WARN", Console := true, File := false,
                   Directory := "", MaxSize := 1, MaxBackup := 1, MaxAge := 1,
                   Compress := false },
          logger := none, appName := "app", msName := "ms" : LogAdapter }).Debug
        { now := "2020-06-16 00:39:15.7164", goId := 7, hostname := "h",
          hostnameErr := false, uuidV := "u" } none "hello" []) ∧
     EmitsPerSink
      { cfg := { Level := "WARN", Console := true, File := false,
                 Directory := "", MaxSize := 1, MaxBackup := 1, MaxAge := 1,
                 Compress := false },
        logger := none, appName := "app", msName := "ms" : LogAdapter } "INFO"
      (({ cfg := { Level := "WARN", Console := true, File := false,
                   Directory := "", MaxSize := 1, MaxBackup := 1, MaxAge := 1,
                   Compress := false },
          logger := none, appName := "app", msName := "ms" : LogAdapter }).Info
        { now := "2020-06-16 00:39:15.7164", goId := 7, hostname := "h",
          hostnameErr := false, uuidV := "u" } none "hello" []) ∧
     EmitsPerSink
      { cfg := { Level := "WARN", Console := true, File := false,
                 Directory := "", MaxSize := 1, MaxBackup := 1, MaxAge := 1,
                 Compress := false },
        logger := none, appName := "app", msName := "ms" : LogAdapter } "WARN"
      (({ cfg := { Level := "WARN", Console := true, File := false,
                   Directory := "", MaxSize := 1, MaxBackup := 1, MaxAge := 1,
                   Compress := false },
          logger := none, appName := "app", msName := "ms" : LogAdapter }).Warn
        { now := "2020-06-16 00:39:15.7164", goId := 7, hostname := "h",
          hostnameErr := false, uuidV := "u" } none "hello" [])) :=
  ⟨rfl, methods_emit_once_per_enabled_sink _ _ "hello" [] rfl⟩

/-- C6: with the file sink enabled, when the external `Write` on the
rotating handle returns an error, `logToFile` prints that error to the
console and returns normally; on a loggable call the whole `log` run is the
successful run plus that one console diagnostic, with the same bytes handed
to the file handle — no log method propagates a sink failure to its caller. -/
theorem write_error_printed_and_swallowed (a : LogAdapter) (env : FormatEnv)
    (L message : String) (options : List GoValue) (e : String)
    (hf : a.cfg.File = true) (hl : a.isLoggable L = true) :
    a.logToFile (some e) message = ⟨[e], [message ++ "\n"]⟩ ∧
    a.log env (some e) L message options =
      ⟨(a.log env none L message options).console ++ [e],
       (a.log env none L message options).fileWrites⟩ := by
  constructor
  · simp [LogAdapter.logToFile, hf]
  · simp [LogAdapter.log, hl, LogAdapter.logToConsole, LogAdapter.logToFile, hf]

theorem write_error_printed_and_swallowed_witness :
    (({ cfg := { Level := "ERROR", Console := true, File := true,
                 Directory := "/tmp", MaxSize := 1, MaxBackup := 1, MaxAge := 1,
                 Compress := false },
        logger := none, appName := "app", msName := "ms" : LogAdapter
      }).cfg.File = true ∧
     ({ cfg := { Level := "ERROR", Console := true, File := true,
                 Directory := "/tmp", MaxSize := 1, MaxBackup := 1, MaxAge := 1,
                 Compress := false },
        logger := none, appName := "app", msName := "ms" : LogAdapter
      }).isLoggable "INFO" = true) ∧
    (({ cfg := { Level := "ERROR", Console := true, File := true,
                 Directory := "/tmp", MaxSize := 1, MaxBackup := 1, MaxAge := 1,
                 Compress := false },
        logger := none, appName := "app", msName := "ms" : LogAdapter
      }).logToFile (some "disk full") "x" = ⟨["disk full"], ["x" ++ "\n"]⟩ ∧
     ({ cfg := { Level := "ERROR", Console := true, File := true,
                 Directory := "/tmp", MaxSize := 1, MaxBackup := 1, MaxAge := 1,
                 Compress := false },
        logger := none, appName := "app", msName := "ms" : LogAdapter
      }).log { now := "t", goId := 1, hostname := "h", hostnameErr := false,
               uuidV := "u" } (some "disk full") "INFO" "x" [] =
      ⟨(({ cfg := { Level := "ERROR", Console := true, File := true,
                    Directory := "/tmp", MaxSize := 1, MaxBackup := 1, MaxAge := 1,
                    Compress := false },
           logger := none, appName := "app", msName := "ms" : LogAdapter
         }).log { now := "t", goId := 1, hostname := "h", hostnameErr := false,
                  uuidV := "u" } none "INFO" "x" []).console ++ ["disk full"],
       (({ cfg := { Level := "ERROR", Console := true, File := true,
                    Directory := "/tmp", MaxSize := 1, MaxBackup := 1, MaxAge := 1,
                    Compress := false },
           logger := none, appName := "app", msName := "ms" : LogAdapter
         }).log { now := "t", goId := 1, hostname := "h", hostnameErr := false,
                  uuidV := "u" } none "INFO" "x" []).fileWrites⟩) :=
  ⟨⟨rfl, by decide⟩,
   write_error_printed_and_swallowed _ _ "INFO" "x" [] "disk full" rfl (by decide)⟩

/-- C8: `formatMessage` never consumes its variadic `options` parameter, so
the emission of each public log method (Error, Debug, Info, Warn) is
identical no matter which extra variadic arguments are passed. -/
theorem options_do_not_affect_output (a : LogAdapter) (env : FormatEnv)
    (writeErr : Option String) (L message : String) (o o' : List GoValue) :
    a.formatMessage env L message o = a.formatMessage env L message o' ∧
    a.Error env writeErr message o = a.Error env writeErr message o' ∧
    a.Debug env writeErr message o = a.Debug env writeErr message o' ∧
    a.Info env writeErr message o = a.Info env writeErr message o' ∧
    a.Warn env writeErr message o = a.Warn env writeErr message o' :=
  ⟨rfl, rfl, rfl, rfl, rfl⟩

/-- C5: whenever the scheduled rotation job fires and the rotate operation
returns an error, the job prints that error to the console and panics with
"Error occurred in log rotation", aborting the owning process; a rotation
failure is never silently swallowed. -/
theorem rotation_failure_is_fatal (a : LogAdapter)
    (rotate : Option LumberjackLogger → Option String) (e : String)
    (hr : rotate a.logger = some e) :
    cronJob a rotate = ([e], some "Error occurred in log rotation") := by
  simp [cronJob, hr]

theorem rotation_failure_is_fatal_witness :
    ((fun _ : Option LumberjackLogger => some "rotate failed")
        ({ cfg := { Level := "INFO", Console := true, File := true,
                    Directory := "/tmp", MaxSize := 1, MaxBackup := 1,
                    MaxAge := 1, Compress := false },
           logger := none, appName := "app", msName := "ms" : LogAdapter }).logger
      = some "rotate failed") ∧
    cronJob
      { cfg := { Level := "INFO", Console := true, File := true,
                 Directory := "/tmp", MaxSize := 1, MaxBackup := 1,
                 MaxAge := 1, Compress := false },
        logger := none, appName := "app", msName := "ms" }
      (fun _ => some "rotate failed")
      = (["rotate failed"], some "Error occurred in log rotation") :=
  ⟨rfl, rotation_failure_is_fatal _ _ "rotate failed" rfl⟩

/-- C7: `Destruct` on an adapter with the file sink enabled closes the file
handle and stops the rotation scheduler (leaving the adapter value itself
untouched); on an adapter with the file sink disabled it is a no-op leaving
the whole runtime state unchanged, and in either case it returns normally
(no error channel exists). -/
theorem destruct_closes_or_noop (s : RuntimeState) :
    (s.adapter.cfg.File = true →
      (Destruct s).loggerClosed = true ∧ (Destruct s).cronRunning = false ∧
      (Destruct s).adapter = s.adapter) ∧
    (s.adapter.cfg.File = false → Destruct s = s) := by
  constructor
  · intro hf
    simp [Destruct, hf]
  · intro hf
    simp [Destruct, hf]

theorem destruct_closes_or_noop_witness :
    (sampleStateFileOn.adapter.cfg.File = true ∧
     sampleStateFileOff.adapter.cfg.File = false) ∧
    (((Destruct sampleStateFileOn).loggerClosed = true ∧
      (Destruct sampleStateFileOn).cronRunning = false ∧
      (Destruct sampleStateFileOn).adapter = sampleStateFileOn.adapter) ∧
     Destruct sampleStateFileOff = sampleStateFileOff) :=
  ⟨⟨rfl, rfl⟩,
   ⟨(destruct_closes_or_noop sampleStateFileOn).1 rfl,
    (destruct_closes_or_noop sampleStateFileOff).2 rfl⟩⟩

/-- C4 counterexample: with the file sink enabled and an invalid directory,
`NewLogAdapter` does NOT return an error — it returns an adapter and a nil
error, because `initLogFile` only stores the lumberjack configuration and
never touches the filesystem. -/
theorem newLogAdapter_ok_on_invalid_directory :
    NewLogAdapter invalidDirCfg sampleAppCfg =
      Except.ok
        { adapter :=
            { cfg := invalidDirCfg,
              logger := some
                { Filename := "/go-base-template.log", LocalTime := true,
                  MaxSize := 1, MaxBackups := 1, MaxAge := 1,
                  Compress := false },
              appName := "app", msName := "ms" },
          cronRegistered := true, cronStarted := true } := rfl

/-- C4 amended: `NewLogAdapter` would propagate an error from
`initLogFile` (returning no adapter), but `initLogFile` has no failing
branch — it only records the file-sink configuration, deferring any
filesystem access — so for every configuration and identity, including an
invalid directory with the file sink enabled, `NewLogAdapter` returns a
ready-to-use adapter and a nil error. -/
theorem newLogAdapter_always_ok (cfg : LogConfig) (appCfg : AppConfig) :
    ∃ r : NewResult, NewLogAdapter cfg appCfg = Except.ok r ∧
      r.cronRegistered = true ∧ r.cronStarted = true ∧
      r.adapter.cfg = cfg ∧ r.adapter.appName = appCfg.AppName ∧
      r.adapter.msName = appCfg.MsName := by
  by_cases h : cfg.File <;>
    simp [NewLogAdapter, LogAdapter.initLogFile, h]

/-- C10: `NewLogAdapter` registers and starts the daily rotation job even
when the file sink is disabled; in that case `initLogFile` returns without
touching the `logger` field, so the adapter's handle stays nil and the
registered job, when it fires, invokes the external rotate operation on the
nil handle. -/
theorem cron_job_registered_even_without_file_sink (cfg : LogConfig)
    (appCfg : AppConfig) (hf : cfg.File = false) :
    ∃ r : NewResult, NewLogAdapter cfg appCfg = Except.ok r ∧
      r.cronRegistered = true ∧ r.cronStarted = true ∧
      r.adapter.logger = none ∧
      ∀ rotate : Option LumberjackLogger → Option String,
        cronJob r.adapter rotate =
          (match rotate none with
           | some e => ([e], some "Error occurred in log rotation")
           | none => ([], none)) := by
  refine ⟨{ adapter := { cfg := cfg, logger := none,
                         appName := appCfg.AppName, msName := appCfg.MsName },
            cronRegistered := true, cronStarted := true }, ?_, rfl, rfl, rfl, ?_⟩
  · simp [NewLogAdapter, LogAdapter.initLogFile, hf]
  · intro rotate
    simp [cronJob]

theorem cron_job_registered_even_without_file_sink_witness :
    consoleOnlyCfg.File = false ∧
    (∃ r : NewResult, NewLogAdapter consoleOnlyCfg sampleAppCfg = Except.ok r ∧
      r.cronRegistered = true ∧ r.cronStarted = true ∧
      r.adapter.logger = none ∧
      ∀ rotate : Option LumberjackLogger → Option String,
        cronJob r.adapter rotate =
          (match rotate none with
           | some e => ([e], some "Error occurred in log rotation")
           | none => ([], none))) :=
  ⟨rfl, cron_job_registered_even_without_file_sink consoleOnlyCfg sampleAppCfg rfl⟩

theorem splitFields_pipeFree (l : List Char) (h : '|' ∉ l) :
    splitFields l = [l] := by
  induction l with
  | nil => rfl
  | cons c cs ih =>
    simp only [List.mem_cons, not_or] at h
    rw [splitFields, if_neg (fun hc => h.1 hc.symm), ih h.2]

theorem splitFields_append_pipe (l rest : List Char) (h : '|' ∉ l) :
    splitFields (l ++ '|' :: rest) = l :: splitFields rest := by
  induction l with
  | nil => simp [splitFields]
  | cons c cs ih =>
    simp only [List.mem_cons, not_or] at h
    rw [List.cons_append, splitFields, if_neg (fun hc => h.1 hc.symm), ih h.2]

/-- C3 counterexample: the formatter performs no escaping, so for the
non-empty message `"a|b"` the formatted record splits into 10 pipe-delimited
fields, not 9. -/
theorem nine_fields_fails_on_pipe_in_message :
    ("a|b" : String) ≠ "" ∧
    (splitFields ((sampleAdapter.formatMessage sampleEnv "INFO" "a|b" []).2.data)).length
      = 10 := ⟨by decide, by rfl⟩

/-- C3 amended: for every level and message, provided no component string
(timestamp, rendered goroutine id, hostname, level, appName, msName, uuid,
message) contains a pipe character, the formatted record splits at pipes
into exactly 9 fields in the exact order
timestamp, [contextId], hostname, level, loggerName, appName, msName,
requestId, message, with loggerName the constant "application-log"; and
provided none contains a newline the record is a single line. A message (or
hostname etc.) containing a pipe or newline breaks this, as nothing is
escaped. -/
theorem formatMessage_nine_fields (a : LogAdapter) (env : FormatEnv)
    (L message : String) (options : List GoValue)
    (h : ('|' ∉ env.now.data ∧ '|' ∉ (toString env.goId).data ∧
          '|' ∉ env.hostname.data ∧ '|' ∉ L.data ∧
          '|' ∉ a.appName.data ∧ '|' ∉ a.msName.data ∧
          '|' ∉ env.uuidV.data ∧ '|' ∉ message.data) ∧
         ('\n' ∉ env.now.data ∧ '\n' ∉ (toString env.goId).data ∧
          '\n' ∉ env.hostname.data ∧ '\n' ∉ L.data ∧
          '\n' ∉ a.appName.data ∧ '\n' ∉ a.msName.data ∧
          '\n' ∉ env.uuidV.data ∧ '\n' ∉ message.data)) :
    splitFields ((a.formatMessage env L message options).2.data) =
      [env.now.data, '[' :: ((toString env.goId).data ++ [']']),
       env.hostname.data, L.data, "application-log".data,
       a.appName.data, a.msName.data, env.uuidV.data, message.data] ∧
    '\n' ∉ (a.formatMessage env L message options).2.data := by
  obtain ⟨⟨p1, p2, p3, p4, p5, p6, p7, p8⟩, ⟨n1, n2, n3, n4, n5, n6, n7, n8⟩⟩ := h
  have hdata : (a.formatMessage env L message options).2.data =
      env.now.data ++ '|' ::
        (('[' :: ((toString env.goId).data ++ [']'])) ++ '|' ::
        (env.hostname.data ++ '|' ::
        (L.data ++ '|' ::
        ("application-log".data ++ '|' ::
        (a.appName.data ++ '|' ::
        (a.msName.data ++ '|' ::
        (env.uuidV.data ++ '|' ::
        message.data))))))) := by
    simp [LogAdapter.formatMessage, String.data_append]
  have p2' : '|' ∉ ('[' :: ((toString env.goId).data ++ [']'])) := by
    simp only [List.mem_cons, List.mem_append, List.mem_singleton, not_or]
    exact ⟨by decide, p2, by decide⟩
  have plog : ('|' : Char) ∉ ("application-log" : String).data := by decide
  constructor
  · rw [hdata, splitFields_append_pipe _ _ p1, splitFields_append_pipe _ _ p2',
        splitFields_append_pipe _ _ p3, splitFields_append_pipe _ _ p4,
        splitFields_append_pipe _ _ plog, splitFields_append_pipe _ _ p5,
        splitFields_append_pipe _ _ p6, splitFields_append_pipe _ _ p7,
        splitFields_pipeFree _ p8]
  · rw [hdata]
    simp +decide [List.mem_append, List.mem_cons, n1, n2, n3, n4, n5, n6, n7, n8]

theorem formatMessage_nine_fields_witness :
    ((('|' ∉ sampleEnv.now.data ∧ '|' ∉ (toString sampleEnv.goId).data ∧
       '|' ∉ sampleEnv.hostname.data ∧ '|' ∉ ("INFO" : String).data ∧
       '|' ∉ sampleAdapter.appName.data ∧ '|' ∉ sampleAdapter.msName.data ∧
       '|' ∉ sampleEnv.uuidV.data ∧ '|' ∉ ("hello" : String).data) ∧
      ('\n' ∉ sampleEnv.now.data ∧ '\n' ∉ (toString sampleEnv.goId).data ∧
       '\n' ∉ sampleEnv.hostname.data ∧ '\n' ∉ ("INFO" : String).data ∧
       '\n' ∉ sampleAdapter.appName.data ∧ '\n' ∉ sampleAdapter.msName.data ∧
       '\n' ∉ sampleEnv.uuidV.data ∧ '\n' ∉ ("hello" : String).data))) ∧
    (splitFields ((sampleAdapter.formatMessage sampleEnv "INFO" "hello" []).2.data) =
      [sampleEnv.now.data, '[' :: ((toString sampleEnv.goId).data ++ [']']),
       sampleEnv.hostname.data, ("INFO" : String).data,
       ("application-log" : String).data, sampleAdapter.appName.data,
       sampleAdapter.msName.data, sampleEnv.uuidV.data,
       ("hello" : String).data] ∧
     '\n' ∉ (sampleAdapter.formatMessage sampleEnv "INFO" "hello" []).2.data) :=
  ⟨by decide, formatMessage_nine_fields sampleAdapter sampleEnv "INFO" "hello" [] (by decide)⟩
